import Mathlib

/-!
Shallow embedding of the `flask_taler` payment client
(`src/flask_taler/__init__.py`) and verification of the specification
claims about it.

Modelling conventions:
* Python `bytes` values are `List Nat` with each element `< 256`.
* Python `str` is Lean `String`; a Python value that may be `None` is an
  `Option`.
* The external primitives the source calls (`hashlib.sha256`, `hmac`,
  `json.loads`, the `requests` HTTP transport) are embedded executably:
  SHA-256 and HMAC are implemented in full below, the HTTP round trip is
  an explicit `HttpOutcome` argument, and JSON parsing is a parameter of
  `handle_webhook` (instantiated with the executable `jsonParse` at
  concrete inputs).
* Machine words are `Nat` reduced modulo `2 ^ 32` where the algorithm
  requires it.
-/

/-! ### SHA-256 (the `hashlib.sha256` primitive used by the source) -/

def pow32 : Nat := 4294967296

def add32 (a b : Nat) : Nat := (a + b) % pow32

def rotr32 (n x : Nat) : Nat := ((x >>> n) ||| (x <<< (32 - n))) % pow32

def bsig0 (x : Nat) : Nat := (rotr32 2 x) ^^^ (rotr32 13 x) ^^^ (rotr32 22 x)

def bsig1 (x : Nat) : Nat := (rotr32 6 x) ^^^ (rotr32 11 x) ^^^ (rotr32 25 x)

def ssig0 (x : Nat) : Nat := (rotr32 7 x) ^^^ (rotr32 18 x) ^^^ (x >>> 3)

def ssig1 (x : Nat) : Nat := (rotr32 17 x) ^^^ (rotr32 19 x) ^^^ (x >>> 10)

def chB (x y z : Nat) : Nat := (x &&& y) ^^^ ((x ^^^ (pow32 - 1)) &&& z)

def majB (x y z : Nat) : Nat := (x &&& y) ^^^ (x &&& z) ^^^ (y &&& z)

/-- Largest x with x^k ≤ n, by bounded binary search (fuel covers every
value this file evaluates the roots at). -/
def irootGo (k n : Nat) : Nat → Nat → Nat → Nat
  | 0, lo, _ => lo
  | fuel + 1, lo, hi =>
    if hi ≤ lo + 1 then lo
    else
      let mid := (lo + hi) / 2
      if mid ^ k ≤ n then irootGo k n fuel mid hi else irootGo k n fuel lo mid

def iroot (k n : Nat) : Nat := irootGo k n 130 0 (n + 1)

def sha256Primes : List Nat :=
  [2, 3, 5, 7, 11, 13, 17, 19, 23, 29, 31, 37, 41, 43, 47, 53,
   59, 61, 67, 71, 73, 79, 83, 89, 97, 101, 103, 107, 109, 113, 127, 131,
   137, 139, 149, 151, 157, 163, 167, 173, 179, 181, 191, 193, 197, 199, 211, 223,
   227, 229, 233, 239, 241, 251, 257, 263, 269, 271, 277, 281, 283, 293, 307, 311]

/-- The 64 round constants: first 32 bits of the fractional parts of the
cube roots of the first 64 primes (FIPS 180-4). -/
def k256 : List Nat :=
  sha256Primes.map (fun p => iroot 3 (p * 2 ^ 96) % 2 ^ 32)

/-- The initial hash value: first 32 bits of the fractional parts of the
square roots of the first 8 primes (FIPS 180-4). -/
def sha256InitialHash : List Nat :=
  (sha256Primes.take 8).map (fun p => iroot 2 (p * 2 ^ 64) % 2 ^ 32)

def sha256pad (msg : List Nat) : List Nat :=
  let len := msg.length
  let zeros := (64 + 55 - (len % 64)) % 64
  let bitlen := len * 8
  msg ++ [128] ++ List.replicate zeros 0 ++
    [(bitlen >>> 56) % 256, (bitlen >>> 48) % 256, (bitlen >>> 40) % 256,
     (bitlen >>> 32) % 256, (bitlen >>> 24) % 256, (bitlen >>> 16) % 256,
     (bitlen >>> 8) % 256, bitlen % 256]

def word32At (bs : List Nat) (i : Nat) : Nat :=
  (bs.getD i 0) * 16777216 + (bs.getD (i + 1) 0) * 65536 +
    (bs.getD (i + 2) 0) * 256 + bs.getD (i + 3) 0

def blockWords (block : List Nat) : Array Nat :=
  ((List.range 16).map (fun j => word32At block (4 * j))).toArray

def extendWords (ws : Array Nat) : Array Nat :=
  (List.range 48).foldl (fun acc _i =>
    let n := acc.size
    acc.push (add32 (add32 (ssig1 (acc.getD (n - 2) 0)) (acc.getD (n - 7) 0))
      (add32 (ssig0 (acc.getD (n - 15) 0)) (acc.getD (n - 16) 0)))) ws

structure Sha256State where
  a : Nat
  b : Nat
  c : Nat
  d : Nat
  e : Nat
  f : Nat
  g : Nat
  h : Nat

def sha256Round (st : Sha256State) (kw : Nat × Nat) : Sha256State :=
  let t1 := add32 st.h (add32 (bsig1 st.e) (add32 (chB st.e st.f st.g) (add32 kw.1 kw.2)))
  let t2 := add32 (bsig0 st.a) (majB st.a st.b st.c)
  ⟨add32 t1 t2, st.a, st.b, st.c, add32 st.d t1, st.e, st.f, st.g⟩

def sha256Compress (hs : List Nat) (block : List Nat) : List Nat :=
  let ws := (extendWords (blockWords block)).toList
  let st0 : Sha256State :=
    ⟨hs.getD 0 0, hs.getD 1 0, hs.getD 2 0, hs.getD 3 0,
     hs.getD 4 0, hs.getD 5 0, hs.getD 6 0, hs.getD 7 0⟩
  let stf := (k256.zip ws).foldl sha256Round st0
  [add32 st0.a stf.a, add32 st0.b stf.b, add32 st0.c stf.c, add32 st0.d stf.d,
   add32 st0.e stf.e, add32 st0.f stf.f, add32 st0.g stf.g, add32 st0.h stf.h]

def sha256 (msg : List Nat) : List Nat :=
  let padded := sha256pad msg
  let nblocks := padded.length / 64
  let hs := (List.range nblocks).foldl
    (fun hs i => sha256Compress hs ((padded.drop (64 * i)).take 64)) sha256InitialHash
  hs.foldr (fun w acc =>
    (w >>> 24) % 256 :: (w >>> 16) % 256 :: (w >>> 8) % 256 :: w % 256 :: acc) []

/-! ### Hex encoding (Python `hexdigest`, lowercase) and UTF-8 (`str.encode`) -/

def hexDigit (n : Nat) : Char := Char.ofNat (if n < 10 then 48 + n else 87 + n)

def bytesToHex (bs : List Nat) : String :=
  String.mk (bs.foldr (fun b acc => hexDigit (b / 16) :: hexDigit (b % 16) :: acc) [])

def utf8Char (c : Char) : List Nat :=
  let n := c.toNat
  if n < 128 then [n]
  else if n < 2048 then [192 + n / 64, 128 + n % 64]
  else if n < 65536 then [224 + n / 4096, 128 + (n / 64) % 64, 128 + n % 64]
  else [240 + n / 262144, 128 + (n / 4096) % 64, 128 + (n / 64) % 64, 128 + n % 64]

def utf8Bytes (s : String) : List Nat := (s.data.map utf8Char).flatten

/-! ### HMAC-SHA256 (the `hmac.new(key, payload, hashlib.sha256)` primitive) -/

def hmacSha256 (key msg : List Nat) : List Nat :=
  let k0 := if 64 < key.length then sha256 key else key
  let kp := k0 ++ List.replicate (64 - k0.length) 0
  let ipadKey := kp.map (fun b => b ^^^ 54)
  let opadKey := kp.map (fun b => b ^^^ 92)
  sha256 (opadKey ++ sha256 (ipadKey ++ msg))

def hmacSha256Hex (key msg : List Nat) : String := bytesToHex (hmacSha256 key msg)

/-! ### JSON values and an executable model of `json.loads`

`Json` is the value model for request and response bodies.  Objects are
association lists in source order; the Python code never builds duplicate
keys.  `jsonParse` below is an executable recursive-descent parser used to
instantiate the `parse` parameter of `handle_webhook` at concrete inputs
(ASCII payloads, which covers every concrete payload appearing in this
development; exponent-form number literals are not needed and not
supported). -/

inductive Json where
  | null : Json
  | bool (b : Bool) : Json
  | num (lit : String) : Json
  | str (s : String) : Json
  | arr (elems : List Json) : Json
  | obj (fields : List (String × Json)) : Json

def jsonLookup : List (String × Json) → String → Option Json
  | [], _ => none
  | (k, v) :: rest, key => if k == key then some v else jsonLookup rest key

def jsonWs (bs : List Nat) : List Nat :=
  bs.dropWhile (fun b => b == 32 || b == 9 || b == 10 || b == 13)

def hexNibble (b : Nat) : Option Nat :=
  if 48 ≤ b && b ≤ 57 then some (b - 48)
  else if 97 ≤ b && b ≤ 102 then some (b - 87)
  else if 65 ≤ b && b ≤ 70 then some (b - 55)
  else none

def isDigitByte (b : Nat) : Bool := 48 ≤ b && b ≤ 57

def parseStringRest : Nat → List Nat → Option (List Char × List Nat)
  | 0, _ => none
  | _ + 1, [] => none
  | fuel + 1, b :: rest =>
    if b == 34 then some ([], rest)
    else if b == 92 then
      match rest with
      | [] => none
      | e :: rest1 =>
        let esc : Option (Char × List Nat) :=
          if e == 34 then some (Char.ofNat 34, rest1)
          else if e == 92 then some (Char.ofNat 92, rest1)
          else if e == 47 then some (Char.ofNat 47, rest1)
          else if e == 98 then some (Char.ofNat 8, rest1)
          else if e == 102 then some (Char.ofNat 12, rest1)
          else if e == 110 then some (Char.ofNat 10, rest1)
          else if e == 114 then some (Char.ofNat 13, rest1)
          else if e == 116 then some (Char.ofNat 9, rest1)
          else if e == 117 then
            match rest1 with
            | h1 :: h2 :: h3 :: h4 :: rest2 =>
              match hexNibble h1, hexNibble h2, hexNibble h3, hexNibble h4 with
              | some v1, some v2, some v3, some v4 =>
                some (Char.ofNat (v1 * 4096 + v2 * 256 + v3 * 16 + v4), rest2)
              | _, _, _, _ => none
            | _ => none
          else none
        match esc with
        | some (c, rest2) => (parseStringRest fuel rest2).map (fun p => (c :: p.1, p.2))
        | none => none
    else if 32 ≤ b && b < 128 then
      (parseStringRest fuel rest).map (fun p => (Char.ofNat b :: p.1, p.2))
    else none

def parseNumberLit (bs : List Nat) : Option (Json × List Nat) :=
  let (negChars, bs1) :=
    match bs with
    | 45 :: r => ([Char.ofNat 45], r)
    | _ => (([] : List Char), bs)
  let intDigits := bs1.takeWhile isDigitByte
  let bs2 := bs1.dropWhile isDigitByte
  if intDigits.isEmpty then none
  else
    match bs2 with
    | 46 :: r =>
      let fracDigits := r.takeWhile isDigitByte
      let bs3 := r.dropWhile isDigitByte
      if fracDigits.isEmpty then none
      else
        some (Json.num (String.mk (negChars ++ intDigits.map Char.ofNat ++
          [Char.ofNat 46] ++ fracDigits.map Char.ofNat)), bs3)
    | _ => some (Json.num (String.mk (negChars ++ intDigits.map Char.ofNat)), bs2)

mutual

def parseValue : Nat → List Nat → Option (Json × List Nat)
  | 0, _ => none
  | fuel + 1, bs =>
    match jsonWs bs with
    | 110 :: 117 :: 108 :: 108 :: rest => some (Json.null, rest)
    | 116 :: 114 :: 117 :: 101 :: rest => some (Json.bool true, rest)
    | 102 :: 97 :: 108 :: 115 :: 101 :: rest => some (Json.bool false, rest)
    | 34 :: rest =>
      (parseStringRest (fuel + 1) rest).map (fun p => (Json.str (String.mk p.1), p.2))
    | 91 :: rest =>
      (match jsonWs rest with
       | 93 :: rest2 => some (Json.arr [], rest2)
       | _ => parseElems fuel rest [])
    | 123 :: rest =>
      (match jsonWs rest with
       | 125 :: rest2 => some (Json.obj [], rest2)
       | _ => parseMembers fuel rest [])
    | other => parseNumberLit other

def parseElems : Nat → List Nat → List Json → Option (Json × List Nat)
  | 0, _, _ => none
  | fuel + 1, bs, acc =>
    match parseValue fuel bs with
    | none => none
    | some (v, rest) =>
      match jsonWs rest with
      | 44 :: rest2 => parseElems fuel rest2 (v :: acc)
      | 93 :: rest2 => some (Json.arr (v :: acc).reverse, rest2)
      | _ => none

def parseMembers : Nat → List Nat → List (String × Json) → Option (Json × List Nat)
  | 0, _, _ => none
  | fuel + 1, bs, acc =>
    match jsonWs bs with
    | 34 :: rest =>
      (match parseStringRest (fuel + 1) rest with
       | none => none
       | some (cs, rest2) =>
         match jsonWs rest2 with
         | 58 :: rest3 =>
           (match parseValue fuel rest3 with
            | none => none
            | some (v, rest4) =>
              match jsonWs rest4 with
              | 44 :: rest5 => parseMembers fuel rest5 ((String.mk cs, v) :: acc)
              | 125 :: rest5 => some (Json.obj ((String.mk cs, v) :: acc).reverse, rest5)
              | _ => none)
         | _ => none)
    | _ => none

end

def jsonParse (bs : List Nat) : Option Json :=
  match parseValue (bs.length + 1) bs with
  | some (v, rest) => if (jsonWs rest).isEmpty then some v else none
  | none => none

/-! ### Python value helpers -/

/-- Python truthiness of an optional string (`None` and the empty string
are falsy), as used by `if not self.webhook_secret`, `if not signature`
and `currency or self.default_currency`. -/
def pyTruthy : Option String → Bool
  | none => false
  | some s => !(s == "")

/-- Rendering of an optional string inside a Python f-string:
`None` prints as the four characters `None`. -/
def pyStrOfOpt : Option String → String
  | none => "None"
  | some s => s

/-- Python `a or b` on optional strings. -/
def pyOrStr (a b : Option String) : Option String :=
  if pyTruthy a then a else b

/-! ### `urllib.parse.urljoin`, modelled for the call shapes of the source

Every call in the source joins a base against an absolute-path reference
(a second argument starting with a slash).  For such references `urljoin`
keeps only the scheme and network location of the base; for a base without
a scheme (including the empty string) and for a `None` base it returns the
reference unchanged. -/

def findSchemeSep : List Char → Option (List Char × List Char)
  | [] => none
  | c :: rest =>
    if c == Char.ofNat 58 then
      match rest with
      | s1 :: s2 :: rest2 =>
        if s1 == Char.ofNat 47 && s2 == Char.ofNat 47 then some ([], rest2)
        else (findSchemeSep rest).map (fun p => (c :: p.1, p.2))
      | _ => (findSchemeSep rest).map (fun p => (c :: p.1, p.2))
    else (findSchemeSep rest).map (fun p => (c :: p.1, p.2))

def pyUrljoin (base url : String) : String :=
  match findSchemeSep base.data with
  | none => url
  | some (scheme, rest) =>
    let netloc := rest.takeWhile (fun c => !(c == Char.ofNat 47))
    String.mk scheme ++ "://" ++ String.mk netloc ++ url

def pyUrljoinOpt : Option String → String → String
  | none, url => url
  | some b, url => pyUrljoin b url

/-- Whether a URL names a scheme; `requests` raises `MissingSchema`
(a `RequestException`) before any network traffic when it does not. -/
def hasScheme (url : String) : Bool := (findSchemeSep url.data).isSome

/-! ### The `Taler` extension state and its construction

`Taler` mirrors the five instance attributes of the Python class.
`AppConfig` mirrors the part of the Flask `app.config` mapping the
extension reads: the three bracket-indexed keys are required (a missing
one would raise `KeyError`, a case outside every claim), the two `.get`
keys are optional.  Registration of the extension on the app object and
the `before_request` hook are side effects on the Flask app and are not
modelled; no claim concerns them. -/

structure Taler where
  exchange_url : Option String
  merchant_backend_url : Option String
  merchant_api_key : Option String
  default_currency : Option String
  webhook_secret : Option String
  deriving DecidableEq

structure AppConfig where
  taler_exchange_url : String
  taler_merchant_backend_url : String
  taler_merchant_api_key : String
  taler_default_currency : Option String
  taler_webhook_secret : Option String

/-- Stand-in for the attribute-less state of the Python object between
`object.__new__` and the attribute assignments of `__init__`; the
constructor model overwrites every field of it. -/
def talerBlank : Taler := ⟨none, none, none, none, none⟩

/-- `Taler.init_app`: loads the five attributes from the app config. -/
def init_app (_s : Taler) (app : AppConfig) : Taler :=
  { exchange_url := some app.taler_exchange_url,
    merchant_backend_url := some app.taler_merchant_backend_url,
    merchant_api_key := some app.taler_merchant_api_key,
    default_currency := app.taler_default_currency,
    webhook_secret := app.taler_webhook_secret }

/-- `Taler.__init__(app)`: when an app is given it first runs `init_app`,
and then, in source order, assigns the default values to all five
attributes. -/
def Taler.new (app : Option AppConfig) : Taler :=
  let s :=
    match app with
    | some a => init_app talerBlank a
    | none => talerBlank
  { s with
    exchange_url := none,
    merchant_backend_url := none,
    merchant_api_key := none,
    default_currency := some "EUR",
    webhook_secret := none }

/-! ### HTTP transport model

A call to `requests.post`/`requests.get` is modelled by the deterministic
request value the source builds plus one `HttpOutcome` describing what the
world did: either the backend answered with a status and a JSON body, or
the transport failed (connection, DNS, timeout).  `performRequest` also
reproduces the `MissingSchema` error `requests` raises by itself on a URL
without a scheme (which is what actually happens when the backend base URL
attribute is `None`, since `urljoin` then returns the bare path). -/

structure HttpResponse where
  status : Nat
  body : Json

inductive HttpOutcome where
  | response (r : HttpResponse)
  | transportFailure

/-- The `requests.exceptions.RequestException` values relevant here. -/
inductive ReqError where
  | missingSchema
  | transport
  | httpError (status : Nat) (body : Json)

/-- Python exceptions escaping the client methods. -/
inductive PyExc where
  | requestExc (e : ReqError)
  | attributeExc
  | keyExc
  | typeExc
  | abortInvalidSignature
  | abortInvalidJson

structure HttpRequest where
  method : String
  url : String
  headers : List (String × String)
  jsonBody : Option Json

def performRequest (req : HttpRequest) (oc : HttpOutcome) : Except ReqError HttpResponse :=
  if hasScheme req.url then
    match oc with
    | .transportFailure => .error .transport
    | .response r => .ok r
  else .error .missingSchema

/-- `response.raise_for_status()`: raises `HTTPError` exactly for
status codes in [400, 600). -/
def raise_for_status (r : HttpResponse) : Except ReqError Unit :=
  if 400 ≤ r.status ∧ r.status < 600 then .error (.httpError r.status r.body) else .ok ()

/-- Python `d.get(k)` on a parsed JSON body: `AttributeError` when the
body is not an object, otherwise the field or `None`. -/
def pyDictGet (j : Json) (k : String) : Except PyExc (Option Json) :=
  match j with
  | .obj fields => .ok (jsonLookup fields k)
  | _ => .error .attributeExc

/-- Python `d[k]`: `KeyError` when the key is missing, `TypeError` when
the value is not a dict. -/
def pySubscript (j : Json) (k : String) : Except PyExc Json :=
  match j with
  | .obj fields =>
    match jsonLookup fields k with
    | some v => .ok v
    | none => .error .keyExc
  | _ => .error .typeExc

def jsonGetField (j : Json) (k : String) : Option Json :=
  match j with
  | .obj fields => jsonLookup fields k
  | _ => none

/-! ### The client operations -/

def jsonOfOptStr : Option String → Json
  | none => Json.null
  | some v => Json.str v

def jsonOfOpt : Option Json → Json
  | none => Json.null
  | some v => v

def baseHeaders (s : Taler) : List (String × String) :=
  [("Accept", "application/json"),
   ("Authorization", "Basic " ++ pyStrOfOpt s.merchant_api_key)]

def jsonHeaders (s : Taler) : List (String × String) :=
  [("Accept", "application/json"),
   ("Authorization", "Basic " ++ pyStrOfOpt s.merchant_api_key),
   ("Content-Type", "application/json")]

/-- Request built by `Taler.create_order` (`amount` is carried as the
string Python interpolates into the f-string; float formatting itself is
not modelled). -/
def create_order_request (s : Taler) (amount : String) (currency : Option String)
    (order_id product_description fulfillment_url : Option String)
    (metadata auto_refund pay_deadline refund_deadline : Option Json)
    (public_reorder_url : Option String) : HttpRequest :=
  let currency2 := pyOrStr currency s.default_currency
  let orderFields : List (String × Json) :=
    [("summary", jsonOfOptStr product_description),
     ("order_id", jsonOfOptStr order_id),
     ("amount", Json.str (pyStrOfOpt currency2 ++ ":" ++ amount)),
     ("public_reorder_url", jsonOfOptStr public_reorder_url),
     ("fulfillment_url", jsonOfOptStr fulfillment_url),
     ("refund_deadline", jsonOfOpt refund_deadline),
     ("pay_deadline", jsonOfOpt pay_deadline),
     ("auto_refund", jsonOfOpt auto_refund)]
  let orderFields2 :=
    match metadata with
    | none => orderFields
    | some m => orderFields ++ [("metadata", m)]
  { method := "POST",
    url := pyUrljoinOpt s.merchant_backend_url "/private/orders",
    headers := jsonHeaders s,
    jsonBody := some (Json.obj [("order", Json.obj orderFields2),
                                ("create_token", Json.bool true)]) }

/-- `Taler.create_order`: one POST; the `except RequestException` clause
logs and re-raises, so every request failure propagates; a 2xx response
body is returned as parsed. -/
def create_order (s : Taler) (amount : String) (currency : Option String)
    (order_id product_description fulfillment_url : Option String)
    (metadata auto_refund pay_deadline refund_deadline : Option Json)
    (public_reorder_url : Option String) (oc : HttpOutcome) : Except PyExc Json :=
  let req := create_order_request s amount currency order_id product_description
    fulfillment_url metadata auto_refund pay_deadline refund_deadline public_reorder_url
  match performRequest req oc with
  | .error e => .error (.requestExc e)
  | .ok r =>
    match raise_for_status r with
    | .error e => .error (.requestExc e)
    | .ok _ => .ok r.body

/-- Request built by `Taler.get_payment_url` and `Taler.get_order`
(both issue the same GET). -/
def order_get_request (s : Taler) (order_id : String) : HttpRequest :=
  { method := "GET",
    url := pyUrljoinOpt s.merchant_backend_url ("/private/orders/" ++ order_id),
    headers := baseHeaders s,
    jsonBody := none }

/-- `Taler.get_payment_url`: the `except RequestException` clause turns
every request failure (transport, missing scheme, any HTTP error status)
into `None`; on success it returns `response.json().get("taler_pay_uri")`. -/
def get_payment_url (s : Taler) (order_id : String) (oc : HttpOutcome) :
    Except PyExc (Option Json) :=
  let attempt : Except PyExc (Option Json) :=
    match performRequest (order_get_request s order_id) oc with
    | .error e => .error (.requestExc e)
    | .ok r =>
      match raise_for_status r with
      | .error e => .error (.requestExc e)
      | .ok _ => pyDictGet r.body "taler_pay_uri"
  match attempt with
  | .error (.requestExc _) => .ok none
  | other => other

/-- `Taler.get_order`: same GET; request failures become `None`, a 2xx
response returns the whole parsed body. -/
def get_order (s : Taler) (order_id : String) (oc : HttpOutcome) :
    Except PyExc (Option Json) :=
  let attempt : Except PyExc (Option Json) :=
    match performRequest (order_get_request s order_id) oc with
    | .error e => .error (.requestExc e)
    | .ok r =>
      match raise_for_status r with
      | .error e => .error (.requestExc e)
      | .ok _ => .ok (some r.body)
  match attempt with
  | .error (.requestExc _) => .ok none
  | other => other

/-- Request built by `Taler.process_refund` (`amount` carries the
`str(amount)` rendering). -/
def process_refund_request (s : Taler) (order_id : String)
    (amount reason : Option String) : HttpRequest :=
  let refundFields : List (String × Json) :=
    (match amount with
     | none => []
     | some a => [("refund", Json.str a)]) ++
    (match reason with
     | none => []
     | some r0 => [("reason", Json.str r0)])
  { method := "POST",
    url := pyUrljoinOpt s.merchant_backend_url ("/private/orders/" ++ order_id ++ "/refund"),
    headers := jsonHeaders s,
    jsonBody := some (Json.obj refundFields) }

/-- `Taler.process_refund`: like `create_order`, the except clause logs
and re-raises, so every request failure propagates (404 included). -/
def process_refund (s : Taler) (order_id : String) (amount reason : Option String)
    (oc : HttpOutcome) : Except PyExc Json :=
  match performRequest (process_refund_request s order_id amount reason) oc with
  | .error e => .error (.requestExc e)
  | .ok r =>
    match raise_for_status r with
    | .error e => .error (.requestExc e)
    | .ok _ => .ok r.body

/-- `Taler.verify_webhook_signature`: `False` when the secret attribute is
falsy (`None` or empty); otherwise the lowercase hex HMAC-SHA256 digest of
the raw payload, keyed by the UTF-8 bytes of the secret, is compared to
the supplied signature (`hmac.compare_digest`, i.e. exact string
equality timed safely). -/
def verify_webhook_signature (s : Taler) (payload : List Nat) (signature : String) : Bool :=
  if !pyTruthy s.webhook_secret then false
  else hmacSha256Hex (utf8Bytes (s.webhook_secret.getD "")) payload == signature

/-- `Taler.handle_webhook`, as a function of the raw request body, the
`X-Taler-Signature` header (absent headers give `None`), and the JSON
parser standing for `json.loads` composed with UTF-8 decoding.
`abort(400, ...)` is modelled as the corresponding error value.  After a
verified parse the source only dispatches on `event.get("type")` (an
`AttributeError` when the document is not an object), reads
`event["payload"]["order_id"]` for the two payment event types (raising
`KeyError`/`TypeError` when absent or not an object), logs, and returns
`True`. -/
def handle_webhook (parse : List Nat → Option Json) (s : Taler)
    (data : List Nat) (signature : Option String) : Except PyExc Bool :=
  if !pyTruthy signature || !verify_webhook_signature s data (signature.getD "") then
    .error .abortInvalidSignature
  else
    match parse data with
    | none => .error .abortInvalidJson
    | some event =>
      match event with
      | .obj fields =>
        (match jsonLookup fields "type" with
         | some (.str t) =>
           if t == "payment.succeeded" then
             match pySubscript event "payload" with
             | .error e => .error e
             | .ok p =>
               match pySubscript p "order_id" with
               | .error e => .error e
               | .ok _ => .ok true
           else if t == "payment.failed" then
             match pySubscript event "payload" with
             | .error e => .error e
             | .ok p =>
               match pySubscript p "order_id" with
               | .error e => .error e
               | .ok _ => .ok true
           else .ok true
         | _ => .ok true)
      | _ => .error .attributeExc

/-! ### Claims -/

set_option maxRecDepth 400000

/-- C3: the one-argument constructor first loads the app configuration via
`init_app` and then unconditionally overwrites it, so after `Taler(app)`
returns, the URL, key and secret attributes are `None` and the default
currency is `"EUR"` whatever the app config said; only the two-step
`Taler()` followed by `init_app(app)` retains the configured values. -/
theorem taler_ctor_clobbers_config (a : AppConfig) :
    Taler.new (some a) = ⟨none, none, none, some "EUR", none⟩ ∧
    init_app (Taler.new none) a =
      ⟨some a.taler_exchange_url, some a.taler_merchant_backend_url,
       some a.taler_merchant_api_key, a.taler_default_currency,
       a.taler_webhook_secret⟩ :=
  ⟨rfl, rfl⟩

/-- C10: `get_order` is deterministic: its result is a function of the
configuration (only the backend base URL can influence it — the API key
only enters the discarded request headers), the order id, and the backend
response, so two calls with the same id against an unchanged backend
return equal results. -/
theorem get_order_deterministic (s s' : Taler) (order_id : String)
    (oc oc' : HttpOutcome) (hcfg : s.merchant_backend_url = s'.merchant_backend_url)
    (hoc : oc = oc') :
    get_order s order_id oc = get_order s' order_id oc' := by
  subst hoc
  simp only [get_order, order_get_request, performRequest, hcfg]

theorem get_order_deterministic_witness :
    get_order ⟨none, some "https://merchant.example.com", some "key-a", some "EUR", none⟩
        "order-7" (.response ⟨200, Json.obj [("order_id", Json.str "order-7")]⟩) =
      get_order ⟨none, some "https://merchant.example.com", some "key-b", some "EUR", none⟩
        "order-7" (.response ⟨200, Json.obj [("order_id", Json.str "order-7")]⟩) :=
  get_order_deterministic _ _ "order-7" _ _ rfl rfl

/-- C2: for every payload (well-formed JSON or not) and every absent or
failing signature, `handle_webhook` fails with the invalid-signature
abort; the result does not depend on the JSON parser at all, so parsing
demonstrably cannot have been attempted, and the failure is never the
malformed-payload abort. -/
theorem handle_webhook_checks_signature_first (parse : List Nat → Option Json)
    (s : Taler) (data : List Nat) (signature : Option String)
    (h : pyTruthy signature = false ∨
      verify_webhook_signature s data (signature.getD "") = false) :
    handle_webhook parse s data signature = .error .abortInvalidSignature := by
  unfold handle_webhook
  rcases h with h | h <;> simp [h]

theorem handle_webhook_checks_signature_first_witness :
    handle_webhook jsonParse ⟨none, none, none, some "EUR", none⟩ [1, 2, 3]
      (some "deadbeef") = .error .abortInvalidSignature :=
  handle_webhook_checks_signature_first jsonParse _ _ _ (Or.inr rfl)


/-- C4 counterexample: a 404 refund response does not yield `None`; the
caught `HTTPError` is re-raised, so the call fails with the HTTP error. -/
theorem process_refund_404_raises :
    process_refund ⟨none, some "https://merchant.example.com", some "api-key",
        some "EUR", none⟩ "order-1" none none (.response ⟨404, Json.obj []⟩) =
      .error (.requestExc (.httpError 404 (Json.obj []))) := rfl

/-- C4 (amended): `process_refund` treats 404 like every other non-2xx
status — the `HTTPError` is logged and re-raised, never mapped to `None`;
a transport failure is re-raised too; a 2xx response returns the parsed
refund confirmation body. -/
theorem process_refund_spec (s : Taler) (order_id : String)
    (amount reason : Option String) (oc : HttpOutcome) :
    process_refund s order_id amount reason oc =
      if hasScheme (pyUrljoinOpt s.merchant_backend_url
          ("/private/orders/" ++ order_id ++ "/refund")) then
        match oc with
        | .transportFailure => .error (.requestExc .transport)
        | .response r =>
          if 400 ≤ r.status ∧ r.status < 600 then
            .error (.requestExc (.httpError r.status r.body))
          else .ok r.body
      else .error (.requestExc .missingSchema) := by
  cases oc with
  | transportFailure =>
    cases hsch : hasScheme (pyUrljoinOpt s.merchant_backend_url
        ("/private/orders/" ++ order_id ++ "/refund")) <;>
      simp [process_refund, process_refund_request, performRequest, hsch]
  | response r =>
    cases hsch : hasScheme (pyUrljoinOpt s.merchant_backend_url
        ("/private/orders/" ++ order_id ++ "/refund"))
    · simp [process_refund, process_refund_request, performRequest, hsch]
    · by_cases hst : 400 ≤ r.status ∧ r.status < 600 <;>
        simp [process_refund, process_refund_request, performRequest,
          raise_for_status, hsch, hst]

/-- C5 counterexample: a 500 response to the payment-URL GET is not a
`BackendError` surfaced to the caller; the except clause swallows it and
returns `None`. -/
theorem get_payment_url_500_swallowed :
    get_payment_url ⟨none, some "https://merchant.example.com", some "api-key",
        some "EUR", none⟩ "order-1" (.response ⟨500, Json.obj []⟩) = .ok none := rfl

/-- C5 (amended): `get_payment_url` returns `None` for a 404 — but equally
for every other non-2xx status and for transport failures, because the
except clause catches every `RequestException`; on a 2xx response it
returns the `taler_pay_uri` field of the JSON body, `None` when the field
is absent (an `AttributeError` escapes when the body is not an object). -/
theorem get_payment_url_spec (s : Taler) (order_id : String) (oc : HttpOutcome) :
    get_payment_url s order_id oc =
      if hasScheme (pyUrljoinOpt s.merchant_backend_url
          ("/private/orders/" ++ order_id)) then
        match oc with
        | .transportFailure => .ok none
        | .response r =>
          if 400 ≤ r.status ∧ r.status < 600 then .ok none
          else pyDictGet r.body "taler_pay_uri"
      else .ok none := by
  cases oc with
  | transportFailure =>
    cases hsch : hasScheme (pyUrljoinOpt s.merchant_backend_url
        ("/private/orders/" ++ order_id)) <;>
      simp [get_payment_url, order_get_request, performRequest, hsch]
  | response r =>
    cases hsch : hasScheme (pyUrljoinOpt s.merchant_backend_url
        ("/private/orders/" ++ order_id))
    · simp [get_payment_url, order_get_request, performRequest, hsch]
    · by_cases hst : 400 ≤ r.status ∧ r.status < 600
      · simp [get_payment_url, order_get_request, performRequest,
          raise_for_status, hsch, hst]
      · cases hb : r.body <;>
          simp [get_payment_url, order_get_request, performRequest,
            raise_for_status, pyDictGet, hsch, hst, hb]

/-- C6 counterexample: a transport failure in `get_order` is not surfaced
as a typed error; it is logged, swallowed, and mapped to `None`. -/
theorem get_order_transport_swallowed :
    get_order ⟨none, some "https://merchant.example.com", some "api-key",
        some "EUR", none⟩ "order-2" .transportFailure = .ok none := rfl

/-- C6 (amended): transport failures are surfaced (re-raised as the caught
`RequestException`) by `create_order` and `process_refund`, but
`get_payment_url` and `get_order` swallow every request failure —
transport errors and all HTTP error statuses alike — into `None`. -/
theorem transport_error_mapping (s : Taler) (order_id amount : String)
    (currency : Option String)
    (order_id2 product_description fulfillment_url : Option String)
    (metadata auto_refund pay_deadline refund_deadline : Option Json)
    (public_reorder_url : Option String) (refund_amount refund_reason : Option String) :
    get_payment_url s order_id .transportFailure = .ok none ∧
    get_order s order_id .transportFailure = .ok none ∧
    (∃ e, create_order s amount currency order_id2 product_description fulfillment_url
        metadata auto_refund pay_deadline refund_deadline public_reorder_url
        .transportFailure = .error (.requestExc e)) ∧
    (∃ e, process_refund s order_id refund_amount refund_reason .transportFailure =
      .error (.requestExc e)) := by
  refine ⟨?_, ?_, ?_, ?_⟩
  · cases hsch : hasScheme (pyUrljoinOpt s.merchant_backend_url
        ("/private/orders/" ++ order_id)) <;>
      simp [get_payment_url, order_get_request, performRequest, hsch]
  · cases hsch : hasScheme (pyUrljoinOpt s.merchant_backend_url
        ("/private/orders/" ++ order_id)) <;>
      simp [get_order, order_get_request, performRequest, hsch]
  · cases hsch : hasScheme (pyUrljoinOpt s.merchant_backend_url "/private/orders")
    · exact ⟨.missingSchema, by
        simp [create_order, create_order_request, performRequest, hsch]⟩
    · exact ⟨.transport, by
        simp [create_order, create_order_request, performRequest, hsch]⟩
  · cases hsch : hasScheme (pyUrljoinOpt s.merchant_backend_url
        ("/private/orders/" ++ order_id ++ "/refund"))
    · exact ⟨.missingSchema, by
        simp [process_refund, process_refund_request, performRequest, hsch]⟩
    · exact ⟨.transport, by
        simp [process_refund, process_refund_request, performRequest, hsch]⟩

/-- C7: for a valid order request — an explicit nonempty currency, or no
explicit currency with a configured default — `create_order` builds the
single POST whose body field `order.amount` is the string
`<CURRENCY>:<amount>` with the resolved currency, and passes the 2xx
response body through unchanged, so the order id of the result equals the
order id of the backend response. -/
theorem create_order_spec (s : Taler) (amount resolved : String)
    (currency : Option String)
    (order_id product_description fulfillment_url : Option String)
    (metadata auto_refund pay_deadline refund_deadline : Option Json)
    (public_reorder_url : Option String)
    (hcur : currency = some resolved ∧ resolved ≠ "" ∨
      currency = none ∧ s.default_currency = some resolved) :
    (create_order_request s amount currency order_id product_description fulfillment_url
        metadata auto_refund pay_deadline refund_deadline public_reorder_url).method =
      "POST" ∧
    (∃ fields,
      (create_order_request s amount currency order_id product_description fulfillment_url
          metadata auto_refund pay_deadline refund_deadline public_reorder_url).jsonBody =
        some (Json.obj [("order", Json.obj fields), ("create_token", Json.bool true)]) ∧
      jsonLookup fields "amount" = some (Json.str (resolved ++ ":" ++ amount))) ∧
    (∀ body : Json,
      hasScheme (pyUrljoinOpt s.merchant_backend_url "/private/orders") = true →
      (create_order s amount currency order_id product_description fulfillment_url
          metadata auto_refund pay_deadline refund_deadline public_reorder_url
          (.response ⟨200, body⟩)).map (fun j => jsonGetField j "order_id") =
        .ok (jsonGetField body "order_id")) := by
  have hres : pyStrOfOpt (pyOrStr currency s.default_currency) = resolved := by
    rcases hcur with ⟨hc, hne⟩ | ⟨hc, hd⟩
    · subst hc
      simp [pyOrStr, pyTruthy, pyStrOfOpt, hne]
    · subst hc
      simp [pyOrStr, pyTruthy, pyStrOfOpt, hd]
  refine ⟨rfl, ?_, ?_⟩
  · cases metadata with
    | none => exact ⟨_, rfl, by simp [jsonLookup, hres]⟩
    | some m => exact ⟨_, rfl, by simp [jsonLookup, hres]⟩
  · intro body hsch
    simp [create_order, create_order_request, performRequest, raise_for_status,
      Except.map, hsch]

theorem create_order_spec_witness :
    (create_order ⟨none, some "https://merchant.example.com", some "test_api_key",
        some "EUR", none⟩ "10.0" none none none none none none none none none
        (.response ⟨200, Json.obj [("order_id", Json.str "test-order-123")]⟩)).map
        (fun j => jsonGetField j "order_id") =
      .ok (jsonGetField (Json.obj [("order_id", Json.str "test-order-123")]) "order_id") :=
  ((create_order_spec ⟨none, some "https://merchant.example.com", some "test_api_key",
      some "EUR", none⟩ "10.0" "EUR" none none none none none none none none none
      (Or.inr ⟨rfl, rfl⟩)).2.2) (Json.obj [("order_id", Json.str "test-order-123")]) rfl

/-- C9: the code contradicts the intended EUR default.  Failing input:
`Taler()` followed by `init_app` on an app config that has no
`TALER_DEFAULT_CURRENCY` key, then `create_order(amount=10.0)` with no
explicit currency.  `init_app` reads the key with `.get` and no fallback,
so `default_currency` becomes `None` (although `__init__` documents and
sets the default `"EUR"`), and the amount is serialized as `"None:10.0"`. -/
theorem init_app_default_currency_not_eur :
    (init_app (Taler.new none)
        ⟨"https://exchange.example.com", "https://merchant.example.com",
         "test_api_key", none, none⟩).default_currency = none ∧
    ((create_order_request (init_app (Taler.new none)
        ⟨"https://exchange.example.com", "https://merchant.example.com",
         "test_api_key", none, none⟩) "10.0" none none none none none none none none
        none).jsonBody.bind (fun b => jsonGetField b "order")).bind
      (fun o => jsonGetField o "amount") = some (Json.str "None:10.0") :=
  ⟨rfl, rfl⟩

/-- C1 counterexample: with the webhook secret configured as the empty
string, the correct digest is rejected: the lowercase hex HMAC-SHA256 of
the empty payload under that secret equals the supplied signature, yet
`verify_webhook_signature` returns false, because the falsy-secret guard
fires for the empty string just as for `None`. -/
theorem verify_webhook_signature_empty_secret_cex :
    hmacSha256Hex (utf8Bytes "") [] =
      "b613679a0814d9ec772f95d778c35fc5ff1697c493715653c6c712144292c5ad" ∧
    verify_webhook_signature ⟨none, none, none, some "EUR", some ""⟩ []
      "b613679a0814d9ec772f95d778c35fc5ff1697c493715653c6c712144292c5ad" = false :=
  ⟨by decide, rfl⟩

/-- C1 (amended): for every nonempty configured secret,
`verify_webhook_signature` returns true exactly when the lowercase hex
HMAC-SHA256 digest of the raw payload, keyed by the UTF-8 bytes of the
secret, equals the supplied signature exactly (case-sensitively); when the
secret is unset — or set to the empty string, which the falsy check treats
the same way — it returns false for every payload and signature, without
raising. -/
theorem verify_webhook_signature_spec (s : Taler) (payload : List Nat)
    (signature : String) :
    (∀ secret, s.webhook_secret = some secret → secret ≠ "" →
      (verify_webhook_signature s payload signature = true ↔
        hmacSha256Hex (utf8Bytes secret) payload = signature)) ∧
    (s.webhook_secret = none → verify_webhook_signature s payload signature = false) ∧
    (s.webhook_secret = some "" → verify_webhook_signature s payload signature = false) := by
  refine ⟨?_, ?_, ?_⟩
  · intro secret hsec hne
    unfold verify_webhook_signature
    rw [hsec]
    simp [pyTruthy, hne]
  · intro h
    unfold verify_webhook_signature
    rw [h]
    rfl
  · intro h
    unfold verify_webhook_signature
    rw [h]
    rfl

theorem verify_webhook_signature_spec_witness :
    verify_webhook_signature ⟨none, none, none, some "EUR", some "k"⟩ []
      "8bb990c40a7d61cb97597a942125025be50ac8beb74436e3735b98893a7f6620" = true :=
  ((verify_webhook_signature_spec ⟨none, none, none, some "EUR", some "k"⟩ []
      "8bb990c40a7d61cb97597a942125025be50ac8beb74436e3735b98893a7f6620").1 "k" rfl
      (by decide)).mpr (by decide)

/-- C8 counterexample: a correctly signed payload that is the valid JSON
document of two bytes 123, 125 (an empty object, so the required `type`
field is absent) is not rejected as malformed: `handle_webhook` succeeds
and returns the bare flag `True`, not a decoded event and not a
`MalformedPayload` failure.  The signature is the HMAC-SHA256 hex digest
of that payload under the secret `s8`. -/
theorem handle_webhook_missing_type_not_malformed :
    handle_webhook jsonParse ⟨none, none, none, some "EUR", some "s8"⟩ [123, 125]
      (some "43216178c2c816fe0b995f32d34a7e44d9ab6dbf6f50c8bc1fc23e52f4cd442f") =
      .ok true := rfl

/-- C8 (amended): for a verified payload, the only malformed-payload abort
is a JSON parse failure; an absent `type` field is not an error (the
handler returns the bare flag `True`), and an absent order reference for a
`payment.succeeded` event raises an uncaught `KeyError` rather than the
malformed-payload abort; on success the result is `True`, not a decoded
event. -/
theorem handle_webhook_payload_spec (parse : List Nat → Option Json) (s : Taler)
    (data : List Nat) (signature : String) (hne : signature ≠ "")
    (hsig : verify_webhook_signature s data signature = true) :
    (parse data = none →
      handle_webhook parse s data (some signature) = .error .abortInvalidJson) ∧
    (∀ fields, parse data = some (Json.obj fields) → jsonLookup fields "type" = none →
      handle_webhook parse s data (some signature) = .ok true) ∧
    (∀ fields, parse data = some (Json.obj fields) →
      jsonLookup fields "type" = some (Json.str "payment.succeeded") →
      jsonLookup fields "payload" = none →
      handle_webhook parse s data (some signature) = .error .keyExc) := by
  refine ⟨?_, ?_, ?_⟩
  · intro hp
    unfold handle_webhook
    simp [pyTruthy, hne, hsig, hp]
  · intro fields hp ht
    unfold handle_webhook
    simp [pyTruthy, hne, hsig, hp, ht]
  · intro fields hp ht hpl
    unfold handle_webhook
    simp [pyTruthy, hne, hsig, hp, ht, pySubscript, hpl]

theorem handle_webhook_payload_spec_witness :
    handle_webhook jsonParse ⟨none, none, none, some "EUR", some "w8"⟩ [120]
      (some "a2fb0edcb657306079f7d3ad280540cefdfa12211a3d2f2fd953cebae9877c9a") =
      .error .abortInvalidJson :=
  (handle_webhook_payload_spec jsonParse ⟨none, none, none, some "EUR", some "w8"⟩ [120]
      "a2fb0edcb657306079f7d3ad280540cefdfa12211a3d2f2fd953cebae9877c9a"
      (by decide) (by decide)).1 rfl
